import Mathlib

/-!
# Master follower start-up (`weed/command/master_follower.go`)

A shallow embedding of `runMasterFollower` / `startMasterFollower`.

The function talks to the outside world (gRPC peers, the clock, TCP listeners,
goroutines).  The embedding makes the outside world an explicit oracle `Env`
and makes every externally visible action an `Event` appended to a trace, so
that the control flow of the Go function becomes a pure, executable function

  `startMasterFollower : Env → MasterOptions → MasterOptions → List Event × Outcome`.

Pure logging (`glog.V(0).Infof`) has no influence on control flow and is not
recorded; `glog.Errorf` / `glog.Fatalf` are visible through the `Outcome`.
-/

namespace MasterFollower

/-! ## Data model -/

/-- A Go `error` value that is not nil, represented by its message. -/
abbrev GoError := String

/-- The fields of `master_pb.GetMasterConfigurationResponse` read by the follower.
`VolumeSizeLimitMB` is a `uint32` on the wire; the conversion `uint(...)` on
line 97 is a widening and loses nothing, so the value is kept as a natural. -/
structure GetMasterConfigurationResponse where
  DefaultReplication : String
  VolumeSizeLimitMB : Nat
  VolumePreallocate : Bool
deriving DecidableEq, Repr

/-- The fields of `MasterOptions` that `startMasterFollower` reads or writes.
All fields are pointers in Go.  `port`, `ipBind`, `ip` and `peers` are always
set (by the flag package or by `init`); the three configuration fields are
`nil` after `init` (lines 33-35) and are therefore optional here. -/
structure MasterOptions where
  port : Int
  ipBind : String
  ip : String
  peers : String
  defaultReplication : Option String
  volumeSizeLimitMB : Option Nat
  volumePreallocate : Option Bool
deriving DecidableEq, Repr

/-- Modelled from the spec: `weed_server.MasterOption` is declared outside this
file.  It is the record handed to `NewMasterServer` ("ClusterConfiguration +
FollowerOptions", tagged with the non-voting flag): the replication policy,
the size limit, the preallocate flag, the local address, and `IsFollower`. -/
structure MasterOption where
  Host : String
  Port : Int
  VolumeSizeLimitMB : Nat
  VolumePreallocate : Bool
  DefaultReplicaPlacement : String
  IsFollower : Bool
deriving DecidableEq, Repr

/-- What one peer does when it is tried during a round: either the connection
cannot be established (the callback is never invoked), or the connection is
established and `client.GetMasterConfiguration` returns an error or a
response. -/
inductive PeerReply where
  | dialError (err : GoError)
  | answered (resp : Except GoError GetMasterConfigurationResponse)

/-- The outside world, as an oracle.
* `parseServersToGrpcAddresses` : `pb.ParseServersToGrpcAddresses` (not in this file);
* `reply i j` : what the `j`-th peer address does when it is tried in round `i`;
* `toMasterOption` : `MasterOptions.toMasterOption(nil)` (declared in `master.go`);
* `newListener a` : the error returned by `util.NewListener(a, 0)`, `none` for success. -/
structure Env where
  parseServersToGrpcAddresses : List String → Except GoError (List String)
  reply : Nat → Nat → PeerReply
  toMasterOption : MasterOptions → MasterOption
  newListener : String → Option GoError

/-- Externally visible actions.  Actions performed inside the bootstrap loop
carry the loop index `i` of the iteration that performed them. -/
inductive Event where
  /-- Round `i` starts: `pb.WithOneOfGrpcMasterClients` is called (line 91). -/
  | round (i : Nat)
  /-- A `GetMasterConfiguration` request is issued to `address` (line 92). -/
  | getMasterConfiguration (i : Nat) (address : String)
  /-- The call `time.Sleep(d)` of line 104, `d` in nanoseconds. -/
  | sleep (i : Nat) (d : Nat)
  /-- The call `weed_server.NewMasterServer(r, option, masters)` of line 118. -/
  | newMasterServer (option : MasterOption) (masters : List String)
  /-- A call `util.NewListener(address, 0)` (lines 121 and 128). -/
  | newListener (address : String)
  /-- The statement `go grpcS.Serve(grpcL)` of line 136. -/
  | goGrpcServe
  /-- The statement `go ms.MasterClient.KeepConnectedToMaster()` of line 138. -/
  | goKeepConnectedToMaster
  /-- The statement `go httpS.Serve(masterListener)` of line 142. -/
  | goHttpServe
deriving DecidableEq, Repr

/-- How a call of `startMasterFollower` ends.
* `returned` : an ordinary `return` (lines 86 and 109);
* `fatal msg` : the process was terminated with a non-zero status and the
  message `msg`;
* `blocked` : the function reached `select {}` (line 144) and never returns. -/
inductive Outcome where
  | returned
  | fatal (msg : String)
  | blocked
deriving DecidableEq, Repr

/-- Modelled from the spec: `glog.Fatalf` is not in this file.  "Binding failure
for either listener is fatal (abort startup, report the port and underlying
error)"; "terminate the process with a non-zero status and a descriptive
message": the call ends the run, and nothing after it is executed. -/
@[reducible] def glogFatalf (msg : String) : Outcome := Outcome.fatal msg

/-! ## Library functions -/

/-- The constant `time.Second`, in nanoseconds. -/
def Second : Nat := 1000000000

/-- Go's `int` is 64 bits wide on the supported platforms. -/
def intBits : Nat := 64

/-- The smallest `int`. -/
def minInt : Int := -(2 ^ (intBits - 1))

/-- The largest `int`. -/
def maxInt : Int := 2 ^ (intBits - 1) - 1

/-- Reduction of a mathematical integer to the `int` it wraps around to. -/
def wrapInt (x : Int) : Int :=
  (x - minInt) % (2 ^ intBits) + minInt

/-- The Go expression `a + b` on `int`s. -/
def intAdd (a b : Int) : Int := wrapInt (a + b)

/-- Decimal digits of a natural number, most significant first
(`fuel` bounds the number of digits). -/
def decimalDigits : Nat → Nat → List Char → List Char
  | 0, _, acc => acc
  | fuel + 1, n, acc =>
    let acc1 := Char.ofNat (48 + n % 10) :: acc
    if n / 10 = 0 then acc1 else decimalDigits fuel (n / 10) acc1

/-- The function `strconv.Itoa`: the decimal representation of an `int`
(at most 19 digits). -/
def Itoa (i : Int) : String :=
  if i < 0 then String.mk ('-' :: decimalDigits 20 i.natAbs [])
  else String.mk (decimalDigits 20 i.natAbs [])

/-- Worker of `Split`: `cur` holds the current piece, reversed. -/
def splitChars (sep : Char) : List Char → List Char → List String
  | [], cur => [String.mk cur.reverse]
  | c :: cs, cur =>
    if c = sep then String.mk cur.reverse :: splitChars sep cs []
    else splitChars sep cs (c :: cur)

/-- The call `strings.Split(s, ",")`: the pieces of `s` between commas; the
result is never empty. -/
def Split (s : String) : List String := splitChars ',' s.data []

/-- The rendering of a `[]string` by the `%v` verb: `[a b c]`. -/
def fmtStrings (xs : List String) : String :=
  "[" ++ " ".intercalate xs ++ "]"

/-! ## The bootstrap loop (lines 90-106) -/

/-- The three local variables the loop works on, and the trace so far. -/
structure LoopState where
  err : Option GoError
  masterOptions : MasterOptions
  trace : List Event
deriving DecidableEq, Repr

/-- The closure of lines 91-100, given what `client.GetMasterConfiguration`
returned: on an error it returns the wrapped error and writes nothing; on a
response it writes the three configuration fields and returns nil. -/
def getConfigurationCallback (masterGrpcAddresses : List String)
    (r : Except GoError GetMasterConfigurationResponse) (masterOptions : MasterOptions) :
    Option GoError × MasterOptions :=
  match r with
  | .error err =>
    (some ("get master grpc address " ++ fmtStrings masterGrpcAddresses
        ++ " configuration: " ++ err), masterOptions)
  | .ok resp =>
    (none, { masterOptions with
              defaultReplication := some resp.DefaultReplication
              volumeSizeLimitMB := some resp.VolumeSizeLimitMB
              volumePreallocate := some resp.VolumePreallocate })

/-- The error of a round in which no peer was tried at all.  (The spec makes a
round without a successful response fail; the peer list of a run is never
empty, since `strings.Split` returns at least one piece.) -/
def errNoPeer : GoError := "no master grpc address"

/-- Modelled from the spec: `pb.WithOneOfGrpcMasterClients` is not in this
file.  "Try members in order; the first that accepts a connection and a
request is used; a member that fails is skipped, not retried within the same
round.  If no member yields a successful response, the round fails."
`j` is the index of the next peer, `lastErr` the error of the latest failed
peer; the callback `fn` is invoked once per peer that accepts a connection. -/
def withOneOfGrpcMasterClients (i : Nat) (reply : Nat → PeerReply)
    (fn : Except GoError GetMasterConfigurationResponse → MasterOptions →
      Option GoError × MasterOptions) :
    List String → Nat → GoError → MasterOptions → List Event →
      Option GoError × MasterOptions × List Event
  | [], _, lastErr, mo, tr => (some lastErr, mo, tr)
  | a :: rest, j, _, mo, tr =>
    match reply j with
    | .dialError e => withOneOfGrpcMasterClients i reply fn rest (j + 1) e mo tr
    | .answered r =>
      match fn r mo with
      | (none, mo1) => (none, mo1, tr ++ [Event.getMasterConfiguration i a])
      | (some e, mo1) =>
        withOneOfGrpcMasterClients i reply fn rest (j + 1) e mo1
          (tr ++ [Event.getMasterConfiguration i a])

/-- The body of the loop for index `i` (lines 91-105): one call of
`WithOneOfGrpcMasterClients`, assigned to `err`; if `err != nil`, a sleep of
`time.Duration(i+1) * time.Second`.  There is no `break`. -/
def bootstrapRound (env : Env) (masterGrpcAddresses : List String) (i : Nat)
    (st : LoopState) : LoopState :=
  match withOneOfGrpcMasterClients i (env.reply i)
      (getConfigurationCallback masterGrpcAddresses) masterGrpcAddresses 0 errNoPeer
      st.masterOptions (st.trace ++ [Event.round i]) with
  | (none, mo, tr) => { err := none, masterOptions := mo, trace := tr }
  | (some e, mo, tr) =>
    { err := some e, masterOptions := mo, trace := tr ++ [Event.sleep i ((i + 1) * Second)] }

/-- The loop `for i := ...; i < ...; i++` with `n` iterations left, the next
index being `i`. -/
def bootstrapRounds (env : Env) (masterGrpcAddresses : List String) :
    Nat → Nat → LoopState → LoopState
  | 0, _, st => st
  | n + 1, i, st =>
    bootstrapRounds env masterGrpcAddresses n (i + 1)
      (bootstrapRound env masterGrpcAddresses i st)

/-- Lines 90-106: `for i := 0; i < 10; i++ { ... }`, entered with the (nil)
`err` of the address parsing. -/
def bootstrap (env : Env) (masterGrpcAddresses : List String)
    (masterOptions : MasterOptions) : LoopState :=
  bootstrapRounds env masterGrpcAddresses 10 0
    { err := none, masterOptions := masterOptions, trace := [] }

/-! ## Service start-up (lines 113-144) -/

/-- Lines 113-144, entered after the loop with `err == nil`. -/
def startService (env : Env) (masters : List String) (masterOptions : MasterOptions)
    (trace : List Event) : List Event × Outcome :=
  let option := { env.toMasterOption masterOptions with IsFollower := true }
  let tr1 := trace ++ [Event.newMasterServer option masters]
  let listeningAddress := masterOptions.ipBind ++ ":" ++ Itoa masterOptions.port
  let tr2 := tr1 ++ [Event.newListener listeningAddress]
  match env.newListener listeningAddress with
  | some e => (tr2, glogFatalf ("Master startup error: " ++ e))
  | none =>
    let grpcPort := intAdd masterOptions.port 10000
    let grpcAddress := masterOptions.ipBind ++ ":" ++ Itoa grpcPort
    let tr3 := tr2 ++ [Event.newListener grpcAddress]
    match env.newListener grpcAddress with
    | some e =>
      (tr3, glogFatalf ("master failed to listen on grpc port " ++ Itoa grpcPort
        ++ ": " ++ e))
    | none =>
      (tr3 ++ [Event.goGrpcServe, Event.goKeepConnectedToMaster, Event.goHttpServe],
        Outcome.blocked)

/-- The function `startMasterFollower(masterOptions)`.  `mf` is the package
variable, read on line 82. -/
def startMasterFollower (env : Env) (mf masterOptions : MasterOptions) :
    List Event × Outcome :=
  let masters := Split mf.peers
  match env.parseServersToGrpcAddresses masters with
  | .error _ => ([], Outcome.returned)
  | .ok masterGrpcAddresses =>
    let st := bootstrap env masterGrpcAddresses masterOptions
    match st.err with
    | some _ => (st.trace, Outcome.returned)
    | none => startService env masters st.masterOptions st.trace

/-- The function `runMasterFollower`: `some true` when `startMasterFollower`
returned (line 76), `none` when control never comes back from it (the process
was terminated, or it blocks forever).  The two `util.LoadConfiguration`
calls are made with `required = false` and do not affect what follows. -/
def runMasterFollower (env : Env) (mf : MasterOptions) : List Event × Option Bool :=
  match startMasterFollower env mf mf with
  | (tr, Outcome.returned) => (tr, some true)
  | (tr, _) => (tr, none)

/-! ## Observations on runs -/

/-- The write performed by lines 96-98 for the response `r`. -/
def writeConfiguration (r : GetMasterConfigurationResponse) (masterOptions : MasterOptions) :
    MasterOptions :=
  { masterOptions with
      defaultReplication := some r.DefaultReplication
      volumeSizeLimitMB := some r.VolumeSizeLimitMB
      volumePreallocate := some r.VolumePreallocate }

/-- What a round amounts to, read off the oracle: the response of the first
peer, in peer order from index `j`, that answers the request successfully, or
else the error of the last peer tried (`lastErr` when none is left). -/
def roundOutcome (masterGrpcAddresses : List String) (reply : Nat → PeerReply) :
    List String → Nat → GoError → Except GoError GetMasterConfigurationResponse
  | [], _, lastErr => .error lastErr
  | _ :: rest, j, _ =>
    match reply j with
    | .dialError e => roundOutcome masterGrpcAddresses reply rest (j + 1) e
    | .answered (.ok r) => .ok r
    | .answered (.error e) =>
      roundOutcome masterGrpcAddresses reply rest (j + 1)
        ("get master grpc address " ++ fmtStrings masterGrpcAddresses
          ++ " configuration: " ++ e)

/-- The requests issued during round `i`, read off the oracle: one to every
peer that accepts the connection, up to and including the first success. -/
def roundRequests (i : Nat) (reply : Nat → PeerReply) : List String → Nat → List Event
  | [], _ => []
  | a :: rest, j =>
    match reply j with
    | .dialError _ => roundRequests i reply rest (j + 1)
    | .answered (.ok _) => [Event.getMasterConfiguration i a]
    | .answered (.error _) =>
      Event.getMasterConfiguration i a :: roundRequests i reply rest (j + 1)

/-- Whether round `i` fails, read off the oracle. -/
def roundFails (env : Env) (masterGrpcAddresses : List String) (i : Nat) : Bool :=
  match roundOutcome masterGrpcAddresses (env.reply i) masterGrpcAddresses 0 errNoPeer with
  | .ok _ => false
  | .error _ => true

/-- The events of round `i`, read off the oracle: the start of the round, its
requests, and a sleep of `i + 1` seconds when the round fails. -/
def roundEvents (env : Env) (masterGrpcAddresses : List String) (i : Nat) : List Event :=
  Event.round i :: roundRequests i (env.reply i) masterGrpcAddresses 0 ++
    (if roundFails env masterGrpcAddresses i then [Event.sleep i ((i + 1) * Second)] else [])

/-- The response of the most recent successful round among rounds `0 .. n-1`. -/
def lastResponse (env : Env) (masterGrpcAddresses : List String) :
    Nat → Option GetMasterConfigurationResponse
  | 0 => none
  | n + 1 =>
    match roundOutcome masterGrpcAddresses (env.reply n) masterGrpcAddresses 0 errNoPeer with
    | .ok r => some r
    | .error _ => lastResponse env masterGrpcAddresses n

/-- The loop state of the run when iteration `i` is about to start. -/
def stateBefore (env : Env) (masterGrpcAddresses : List String) (masterOptions : MasterOptions)
    (i : Nat) : LoopState :=
  bootstrapRounds env masterGrpcAddresses i 0
    { err := none, masterOptions := masterOptions, trace := [] }

/-- The value of `err` in the run right after the call of
`WithOneOfGrpcMasterClients` in iteration `i`. -/
def roundErr (env : Env) (masterGrpcAddresses : List String) (masterOptions : MasterOptions)
    (i : Nat) : Option GoError :=
  (bootstrapRound env masterGrpcAddresses i
    (stateBefore env masterGrpcAddresses masterOptions i)).err

/-- The number of rounds started in a trace. -/
def roundsPerformed (tr : List Event) : Nat :=
  (tr.filter (fun e => match e with | .round _ => true | _ => false)).length

/-- The number of `GetMasterConfiguration` requests issued in a trace. -/
def requestsIssued (tr : List Event) : Nat :=
  (tr.filter (fun e => match e with | .getMasterConfiguration _ _ => true | _ => false)).length

/-- The durations slept in a trace, in order, in nanoseconds. -/
def sleepDurations (tr : List Event) : List Nat :=
  tr.filterMap (fun e => match e with | .sleep _ d => some d | _ => none)

/-- The addresses passed to `util.NewListener` in a trace, in order. -/
def listenAddresses (tr : List Event) : List String :=
  tr.filterMap (fun e => match e with | .newListener a => some a | _ => none)

/-- The options passed to `NewMasterServer` in a trace, in order. -/
def serverOptions (tr : List Event) : List MasterOption :=
  tr.filterMap (fun e => match e with | .newMasterServer o _ => some o | _ => none)

/-- Events of service start-up: creating the service instance, binding a
listener, launching a background task. -/
def Event.isStartup : Event → Bool
  | .newMasterServer _ _ => true
  | .newListener _ => true
  | .goGrpcServe => true
  | .goKeepConnectedToMaster => true
  | .goHttpServe => true
  | _ => false

/-- The three background tasks. -/
def Event.isServing : Event → Bool
  | .goGrpcServe => true
  | .goKeepConnectedToMaster => true
  | .goHttpServe => true
  | _ => false

/-- Whether an outcome is a fatal termination of the process. -/
def Outcome.isFatal : Outcome → Bool
  | .fatal _ => true
  | _ => false

/-- The address of the plain HTTP listener (line 119). -/
def listeningAddress (masterOptions : MasterOptions) : String :=
  masterOptions.ipBind ++ ":" ++ Itoa masterOptions.port

/-- The address of the gRPC listener (lines 127-128). -/
def grpcAddress (masterOptions : MasterOptions) : String :=
  masterOptions.ipBind ++ ":" ++ Itoa (intAdd masterOptions.port 10000)

/-- Whether a peer does not deliver a configuration. -/
def PeerReply.isFailure : PeerReply → Bool
  | .dialError _ => true
  | .answered (.error _) => true
  | .answered (.ok _) => false

/-! ## Concrete inputs -/

/-- A configuration as returned by a leader. -/
def cfgA : GetMasterConfigurationResponse :=
  { DefaultReplication := "000", VolumeSizeLimitMB := 30000, VolumePreallocate := false }

/-- Another configuration. -/
def cfgB : GetMasterConfigurationResponse :=
  { DefaultReplication := "001", VolumeSizeLimitMB := 1024, VolumePreallocate := true }

/-- The package variable `mf` after `init` and default flag values. -/
def mf0 : MasterOptions :=
  { port := 9334, ipBind := "", ip := "10.0.0.5", peers := "localhost:9333",
    defaultReplication := none, volumeSizeLimitMB := none, volumePreallocate := none }

/-- A `toMasterOption` that copies the fields (a nil field reads as the zero value). -/
def toMasterOption0 (m : MasterOptions) : MasterOption :=
  { Host := m.ip, Port := m.port, VolumeSizeLimitMB := m.volumeSizeLimitMB.getD 0,
    VolumePreallocate := m.volumePreallocate.getD false,
    DefaultReplicaPlacement := m.defaultReplication.getD "", IsFollower := false }

/-- The world with one peer address, the given peer behaviour and the given
listener behaviour. -/
def envOf (reply : Nat → Nat → PeerReply) (listen : String → Option GoError) : Env :=
  { parseServersToGrpcAddresses := fun _ => .ok ["localhost:19333"],
    reply := reply, toMasterOption := toMasterOption0, newListener := listen }

/-- Every attempt succeeds with `cfgA`; both binds succeed. -/
def envAlwaysOk : Env := envOf (fun _ _ => .answered (.ok cfgA)) (fun _ => none)

/-- Every attempt fails. -/
def envAllFail : Env := envOf (fun _ _ => .dialError "connection refused") (fun _ => none)

/-- Rounds 1 and 2 fail, round 3 succeeds with `cfgA`, rounds 4 to 10 fail. -/
def envThirdOnly : Env :=
  envOf (fun i _ => if i = 2 then .answered (.ok cfgA) else .answered (.error "not ready"))
    (fun _ => none)

/-- Rounds 1 and 2 fail, round 3 succeeds with `cfgA`, rounds 4 to 10 succeed
with `cfgB`. -/
def envThirdThenB : Env :=
  envOf (fun i _ => if i < 2 then .dialError "connection refused"
      else if i = 2 then .answered (.ok cfgA) else .answered (.ok cfgB))
    (fun _ => none)

/-- Rounds 1 and 3 fail, all the others succeed. -/
def envGaps : Env :=
  envOf (fun i _ => if i = 0 ∨ i = 2 then .dialError "connection refused"
      else .answered (.ok cfgA))
    (fun _ => none)

/-- Bootstrap succeeds; the plain bind succeeds and the gRPC bind fails. -/
def envGrpcBindFails : Env :=
  envOf (fun _ _ => .answered (.ok cfgA))
    (fun a => if a = ":19334" then some "address already in use" else none)

/-- Bootstrap succeeds; the plain bind fails. -/
def envPlainBindFails : Env :=
  envOf (fun _ _ => .answered (.ok cfgA))
    (fun a => if a = ":9334" then some "address already in use" else none)


/-! ## Lemmas on the bootstrap loop -/

theorem withOne_eq (i : Nat) (reply : Nat → PeerReply) (A : List String) :
    ∀ (addrs : List String) (j : Nat) (e : GoError) (mo : MasterOptions) (tr : List Event),
      withOneOfGrpcMasterClients i reply (getConfigurationCallback A) addrs j e mo tr =
        match roundOutcome A reply addrs j e with
        | .ok r => (none, writeConfiguration r mo, tr ++ roundRequests i reply addrs j)
        | .error e1 => (some e1, mo, tr ++ roundRequests i reply addrs j) := by
  intro addrs
  induction addrs with
  | nil => intro j e mo tr; simp [withOneOfGrpcMasterClients, roundOutcome, roundRequests]
  | cons a rest ih =>
    intro j e mo tr
    cases h : reply j with
    | dialError e1 =>
      simp only [withOneOfGrpcMasterClients, roundOutcome, roundRequests, h]
      exact ih _ _ _ _
    | answered r =>
      cases r with
      | error e1 =>
        simp only [withOneOfGrpcMasterClients, roundOutcome, roundRequests, h,
          getConfigurationCallback]
        rw [ih]
        cases roundOutcome A reply rest (j + 1) _ <;> simp
      | ok r =>
        simp [withOneOfGrpcMasterClients, roundOutcome, roundRequests, h,
          getConfigurationCallback, writeConfiguration]

theorem bootstrapRound_eq (env : Env) (A : List String) (i : Nat) (st : LoopState) :
    bootstrapRound env A i st =
      match roundOutcome A (env.reply i) A 0 errNoPeer with
      | .ok r => { err := none, masterOptions := writeConfiguration r st.masterOptions,
                   trace := st.trace ++ roundEvents env A i }
      | .error e => { err := some e, masterOptions := st.masterOptions,
                      trace := st.trace ++ roundEvents env A i } := by
  unfold bootstrapRound
  rw [withOne_eq]
  unfold roundEvents roundFails
  cases roundOutcome A (env.reply i) A 0 errNoPeer <;> simp

theorem bootstrapRound_trace (env : Env) (A : List String) (i : Nat) (st : LoopState) :
    (bootstrapRound env A i st).trace = st.trace ++ roundEvents env A i := by
  rw [bootstrapRound_eq]
  cases roundOutcome A (env.reply i) A 0 errNoPeer <;> rfl

theorem bootstrapRound_err (env : Env) (A : List String) (i : Nat) (st : LoopState) :
    (bootstrapRound env A i st).err.isSome = roundFails env A i := by
  rw [bootstrapRound_eq]
  unfold roundFails
  cases roundOutcome A (env.reply i) A 0 errNoPeer <;> rfl

theorem bootstrapRound_options (env : Env) (A : List String) (i : Nat) (st : LoopState) :
    (bootstrapRound env A i st).masterOptions =
      match roundOutcome A (env.reply i) A 0 errNoPeer with
      | .ok r => writeConfiguration r st.masterOptions
      | .error _ => st.masterOptions := by
  rw [bootstrapRound_eq]
  cases roundOutcome A (env.reply i) A 0 errNoPeer <;> rfl

theorem bootstrapRounds_add (env : Env) (A : List String) :
    ∀ (a b i : Nat) (st : LoopState),
      bootstrapRounds env A (a + b) i st =
        bootstrapRounds env A b (i + a) (bootstrapRounds env A a i st) := by
  intro a
  induction a with
  | zero => intro b i st; simp [bootstrapRounds]
  | succ a ih =>
    intro b i st
    have h : a + 1 + b = (a + b) + 1 := by omega
    rw [h]
    simp only [bootstrapRounds]
    rw [ih]
    have h2 : i + 1 + a = i + (a + 1) := by omega
    rw [h2]

theorem bootstrapRounds_succ (env : Env) (A : List String) (n : Nat) (st : LoopState) :
    bootstrapRounds env A (n + 1) 0 st =
      bootstrapRound env A n (bootstrapRounds env A n 0 st) := by
  rw [bootstrapRounds_add env A n 1 0 st]
  simp [bootstrapRounds]

theorem bootstrapRounds_trace (env : Env) (A : List String) :
    ∀ (n i : Nat) (st : LoopState),
      (bootstrapRounds env A n i st).trace =
        st.trace ++ (List.range' i n).flatMap (roundEvents env A) := by
  intro n
  induction n with
  | zero => intro i st; simp [bootstrapRounds]
  | succ n ih =>
    intro i st
    simp only [bootstrapRounds]
    rw [ih, bootstrapRound_trace, List.range'_succ, List.flatMap_cons, List.append_assoc]

theorem bootstrap_eq_round (env : Env) (A : List String) (mo : MasterOptions) :
    bootstrap env A mo = bootstrapRound env A 9 (stateBefore env A mo 9) := by
  unfold bootstrap stateBefore
  exact bootstrapRounds_succ env A 9 _

theorem bootstrap_err (env : Env) (A : List String) (mo : MasterOptions) :
    (bootstrap env A mo).err = roundErr env A mo 9 := by
  rw [bootstrap_eq_round]
  rfl

theorem roundErr_isSome (env : Env) (A : List String) (mo : MasterOptions) (i : Nat) :
    (roundErr env A mo i).isSome = roundFails env A i := by
  unfold roundErr
  exact bootstrapRound_err env A i _

theorem bootstrap_trace (env : Env) (A : List String) (mo : MasterOptions) :
    (bootstrap env A mo).trace = (List.range 10).flatMap (roundEvents env A) := by
  unfold bootstrap
  rw [bootstrapRounds_trace, List.range_eq_range']
  rfl

theorem writeConfiguration_twice (r r1 : GetMasterConfigurationResponse) (mo : MasterOptions) :
    writeConfiguration r (writeConfiguration r1 mo) = writeConfiguration r mo := rfl

theorem bootstrapRounds_options (env : Env) (A : List String) (st : LoopState) :
    ∀ n : Nat, (bootstrapRounds env A n 0 st).masterOptions =
      match lastResponse env A n with
      | some r => writeConfiguration r st.masterOptions
      | none => st.masterOptions := by
  intro n
  induction n with
  | zero => simp [bootstrapRounds, lastResponse]
  | succ n ih =>
    rw [bootstrapRounds_succ, bootstrapRound_options, ih]
    simp only [lastResponse]
    cases roundOutcome A (env.reply n) A 0 errNoPeer with
    | error e => rfl
    | ok r =>
      cases lastResponse env A n <;> rfl

theorem bootstrap_options (env : Env) (A : List String) (mo : MasterOptions) :
    (bootstrap env A mo).masterOptions =
      match lastResponse env A 10 with
      | some r => writeConfiguration r mo
      | none => mo := by
  unfold bootstrap
  exact bootstrapRounds_options env A _ 10

theorem bootstrap_port (env : Env) (A : List String) (mo : MasterOptions) :
    (bootstrap env A mo).masterOptions.port = mo.port ∧
      (bootstrap env A mo).masterOptions.ipBind = mo.ipBind := by
  rw [bootstrap_options]
  cases lastResponse env A 10 <;> exact ⟨rfl, rfl⟩

/-! ## Lemmas on traces -/

theorem mem_roundRequests (i : Nat) (reply : Nat → PeerReply) :
    ∀ (addrs : List String) (j : Nat) (e : Event),
      e ∈ roundRequests i reply addrs j → ∃ a, e = Event.getMasterConfiguration i a := by
  intro addrs
  induction addrs with
  | nil => intro j e h; simp [roundRequests] at h
  | cons a rest ih =>
    intro j e h
    cases hr : reply j with
    | dialError e1 =>
      simp only [roundRequests, hr] at h
      exact ih _ _ h
    | answered r =>
      cases r with
      | error e1 =>
        simp only [roundRequests, hr, List.mem_cons] at h
        rcases h with h | h
        · exact ⟨a, h⟩
        · exact ih _ _ h
      | ok r =>
        simp only [roundRequests, hr, List.mem_singleton] at h
        exact ⟨a, h⟩

theorem mem_roundEvents (env : Env) (A : List String) (i : Nat) (e : Event) :
    e ∈ roundEvents env A i ↔
      e = Event.round i ∨ e ∈ roundRequests i (env.reply i) A 0 ∨
        (roundFails env A i = true ∧ e = Event.sleep i ((i + 1) * Second)) := by
  unfold roundEvents
  cases roundFails env A i <;> simp

theorem sleep_mem_roundEvents (env : Env) (A : List String) (k i d : Nat) :
    Event.sleep i d ∈ roundEvents env A k ↔
      k = i ∧ roundFails env A i = true ∧ d = (i + 1) * Second := by
  rw [mem_roundEvents]
  constructor
  · rintro (h | h | ⟨hf, h⟩)
    · cases h
    · obtain ⟨a, ha⟩ := mem_roundRequests _ _ _ _ _ h
      cases ha
    · cases h
      exact ⟨rfl, hf, rfl⟩
  · rintro ⟨rfl, hf, rfl⟩
    exact Or.inr (Or.inr ⟨hf, rfl⟩)

theorem sleepDurations_roundRequests (i : Nat) (reply : Nat → PeerReply) :
    ∀ (addrs : List String) (j : Nat), sleepDurations (roundRequests i reply addrs j) = [] := by
  intro addrs j
  unfold sleepDurations
  rw [List.filterMap_eq_nil_iff]
  intro e he
  obtain ⟨a, rfl⟩ := mem_roundRequests _ _ _ _ _ he
  rfl

theorem sleepDurations_append (l1 l2 : List Event) :
    sleepDurations (l1 ++ l2) = sleepDurations l1 ++ sleepDurations l2 := by
  unfold sleepDurations
  exact List.filterMap_append _ _ _

theorem sleepDurations_roundEvents (env : Env) (A : List String) (i : Nat) :
    sleepDurations (roundEvents env A i) =
      if roundFails env A i then [(i + 1) * Second] else [] := by
  unfold roundEvents
  rw [← List.singleton_append, sleepDurations_append, sleepDurations_append,
    sleepDurations_roundRequests]
  cases roundFails env A i <;> rfl

theorem flatMap_ite_singleton {α β : Type} (p : α → Bool) (f : α → β) (l : List α) :
    l.flatMap (fun x => if p x then [f x] else []) = (l.filter p).map f := by
  induction l with
  | nil => rfl
  | cons x xs ih =>
    rw [List.flatMap_cons, ih]
    cases h : p x <;> simp [h]

theorem sleepDurations_flatMap (env : Env) (A : List String) (l : List Nat) :
    sleepDurations (l.flatMap (roundEvents env A)) =
      (l.filter (roundFails env A)).map (fun i => (i + 1) * Second) := by
  unfold sleepDurations
  rw [List.filterMap_flatMap]
  rw [← flatMap_ite_singleton]
  congr 1
  funext i
  exact sleepDurations_roundEvents env A i

theorem roundsPerformed_append (l1 l2 : List Event) :
    roundsPerformed (l1 ++ l2) = roundsPerformed l1 + roundsPerformed l2 := by
  simp [roundsPerformed]

theorem roundsPerformed_roundEvents (env : Env) (A : List String) (i : Nat) :
    roundsPerformed (roundEvents env A i) = 1 := by
  have h : ∀ (addrs : List String) (j : Nat),
      roundsPerformed (roundRequests i (env.reply i) addrs j) = 0 := by
    intro addrs j
    unfold roundsPerformed
    rw [List.length_eq_zero, List.filter_eq_nil_iff]
    intro e he
    obtain ⟨a, rfl⟩ := mem_roundRequests _ _ _ _ _ he
    simp
  unfold roundEvents
  rw [← List.singleton_append, roundsPerformed_append, roundsPerformed_append, h]
  cases roundFails env A i <;> rfl

theorem roundsPerformed_flatMap (env : Env) (A : List String) (l : List Nat) :
    roundsPerformed (l.flatMap (roundEvents env A)) = l.length := by
  induction l with
  | nil => rfl
  | cons x xs ih =>
    rw [List.flatMap_cons, roundsPerformed_append, roundsPerformed_roundEvents, ih,
      List.length_cons]
    omega

theorem not_isStartup_roundEvents (env : Env) (A : List String) (i : Nat) (e : Event)
    (h : e ∈ roundEvents env A i) : e.isStartup = false := by
  rw [mem_roundEvents] at h
  rcases h with h | h | ⟨_, h⟩
  · subst h; rfl
  · obtain ⟨a, rfl⟩ := mem_roundRequests _ _ _ _ _ h
    rfl
  · subst h; rfl

theorem not_isStartup_bootstrap (env : Env) (A : List String) (mo : MasterOptions) (e : Event)
    (h : e ∈ (bootstrap env A mo).trace) : e.isStartup = false := by
  rw [bootstrap_trace, List.mem_flatMap] at h
  obtain ⟨i, _, hi⟩ := h
  exact not_isStartup_roundEvents env A i e hi

/-! ## Lemmas on service start-up -/

theorem startService_cases (env : Env) (ms : List String) (mo : MasterOptions)
    (tr : List Event) :
    (∃ e, env.newListener (listeningAddress mo) = some e ∧
      startService env ms mo tr =
        (tr ++ [Event.newMasterServer { env.toMasterOption mo with IsFollower := true } ms,
                Event.newListener (listeningAddress mo)],
          Outcome.fatal ("Master startup error: " ++ e))) ∨
    (env.newListener (listeningAddress mo) = none ∧
      ∃ e, env.newListener (grpcAddress mo) = some e ∧
      startService env ms mo tr =
        (tr ++ [Event.newMasterServer { env.toMasterOption mo with IsFollower := true } ms,
                Event.newListener (listeningAddress mo), Event.newListener (grpcAddress mo)],
          Outcome.fatal ("master failed to listen on grpc port "
            ++ Itoa (intAdd mo.port 10000) ++ ": " ++ e))) ∨
    (env.newListener (listeningAddress mo) = none ∧
      env.newListener (grpcAddress mo) = none ∧
      startService env ms mo tr =
        (tr ++ [Event.newMasterServer { env.toMasterOption mo with IsFollower := true } ms,
                Event.newListener (listeningAddress mo), Event.newListener (grpcAddress mo),
                Event.goGrpcServe, Event.goKeepConnectedToMaster, Event.goHttpServe],
          Outcome.blocked)) := by
  unfold startService listeningAddress grpcAddress glogFatalf
  cases h1 : env.newListener (mo.ipBind ++ ":" ++ Itoa mo.port) with
  | some e => left; exact ⟨e, rfl, by simp [h1]⟩
  | none =>
    right
    cases h2 : env.newListener (mo.ipBind ++ ":" ++ Itoa (intAdd mo.port 10000)) with
    | some e => left; exact ⟨rfl, e, rfl, by simp [h1, h2]⟩
    | none => right; exact ⟨rfl, rfl, by simp [h1, h2]⟩

theorem startMasterFollower_eq (env : Env) (mf mo : MasterOptions) (A : List String)
    (hparse : env.parseServersToGrpcAddresses (Split mf.peers) = .ok A) :
    startMasterFollower env mf mo =
      match (bootstrap env A mo).err with
      | some _ => ((bootstrap env A mo).trace, Outcome.returned)
      | none =>
        startService env (Split mf.peers) (bootstrap env A mo).masterOptions
          (bootstrap env A mo).trace := by
  unfold startMasterFollower
  simp only [hparse]

theorem wrapInt_eq (x : Int) (h1 : minInt ≤ x) (h2 : x ≤ maxInt) : wrapInt x = x := by
  unfold wrapInt
  unfold minInt maxInt intBits at *
  rw [Int.emod_eq_of_lt (by omega) (by omega)]
  omega

theorem roundErr_none_iff (env : Env) (A : List String) (mo : MasterOptions) (i : Nat) :
    roundErr env A mo i = none ↔ roundFails env A i = false := by
  rw [← roundErr_isSome env A mo i]
  cases roundErr env A mo i <;> simp

theorem lastResponse_of_succeeds (env : Env) (A : List String) (n : Nat)
    (h : roundFails env A n = false) :
    ∃ r, roundOutcome A (env.reply n) A 0 errNoPeer = .ok r ∧
      lastResponse env A (n + 1) = some r := by
  unfold roundFails at h
  unfold lastResponse
  cases hr : roundOutcome A (env.reply n) A 0 errNoPeer with
  | error e => rw [hr] at h; cases h
  | ok r => exact ⟨r, rfl, rfl⟩

theorem roundOutcome_of_all_fail (A : List String) (reply : Nat → PeerReply) :
    ∀ (addrs : List String) (j : Nat) (e : GoError),
      (∀ k, k < j + addrs.length → (reply k).isFailure = true) →
      ∃ e1, roundOutcome A reply addrs j e = .error e1 := by
  intro addrs
  induction addrs with
  | nil => intro j e _; exact ⟨e, rfl⟩
  | cons a rest ih =>
    intro j e h
    have hj := h j (by simp)
    have hrest : ∀ k, k < j + 1 + rest.length → (reply k).isFailure = true := by
      intro k hk
      apply h
      simp only [List.length_cons]
      omega
    cases hr : reply j with
    | dialError e1 =>
      simp only [roundOutcome, hr]
      exact ih _ _ hrest
    | answered r =>
      cases r with
      | error e1 =>
        simp only [roundOutcome, hr]
        exact ih _ _ hrest
      | ok r =>
        rw [hr] at hj
        cases hj

theorem roundFails_of_all_fail (env : Env) (A : List String) (i : Nat)
    (h : ∀ j, j < A.length → (env.reply i j).isFailure = true) :
    roundFails env A i = true := by
  unfold roundFails
  obtain ⟨e1, he1⟩ := roundOutcome_of_all_fail A (env.reply i) A 0 errNoPeer
    (by intro k hk; exact h k (by omega))
  rw [he1]

theorem startMasterFollower_cases (env : Env) (mf mo : MasterOptions) (A : List String)
    (hparse : env.parseServersToGrpcAddresses (Split mf.peers) = .ok A) :
    (roundFails env A 9 = true ∧
      startMasterFollower env mf mo = ((bootstrap env A mo).trace, Outcome.returned)) ∨
    (roundFails env A 9 = false ∧
      startMasterFollower env mf mo =
        startService env (Split mf.peers) (bootstrap env A mo).masterOptions
          (bootstrap env A mo).trace) := by
  rw [startMasterFollower_eq env mf mo A hparse, ← roundErr_isSome env A mo 9,
    ← bootstrap_err]
  cases (bootstrap env A mo).err with
  | none => right; exact ⟨rfl, rfl⟩
  | some e => left; exact ⟨rfl, rfl⟩

/-- The events appended by service start-up, and its outcome, in the three
possible cases. -/
theorem startMasterFollower_shape (env : Env) (mf mo : MasterOptions) (A : List String)
    (hparse : env.parseServersToGrpcAddresses (Split mf.peers) = .ok A) :
    ∃ rest : List Event,
      (startMasterFollower env mf mo).1 = (bootstrap env A mo).trace ++ rest ∧
      (∀ e ∈ rest, e.isStartup = true) ∧
      (roundFails env A 9 = true → rest = []) ∧
      (roundFails env A 9 = false → rest ≠ []) := by
  rcases startMasterFollower_cases env mf mo A hparse with ⟨hf, h⟩ | ⟨hf, h⟩
  · exact ⟨[], by rw [h]; simp, by simp, fun _ => rfl, by simp [hf]⟩
  · rcases startService_cases env (Split mf.peers) (bootstrap env A mo).masterOptions
      (bootstrap env A mo).trace with ⟨e, _, hs⟩ | ⟨_, e, _, hs⟩ | ⟨_, _, hs⟩
    all_goals
      rw [hs] at h
      rw [h]
      refine ⟨_, rfl, ?_, by simp [hf], by simp⟩
      intro e he
      simp only [List.mem_cons, List.mem_singleton, List.not_mem_nil, or_false] at he
      rcases he with rfl | rfl | rfl | rfl | rfl | rfl <;> rfl

/-! ## The bootstrap loop: number of rounds, first success -/

/-- C1, evaluation of the code where the claim fails: with a single peer that
answers every request successfully, round 0 already succeeds, and yet the loop
performs all ten rounds and issues ten get-configuration requests (the claim
says one round and one request): nothing leaves the loop after a success. -/
theorem C1_loop_continues_after_first_success :
    roundErr envAlwaysOk ["localhost:19333"] mf0 0 = none ∧
    roundsPerformed (startMasterFollower envAlwaysOk mf0 mf0).1 = 10 ∧
    requestsIssued (startMasterFollower envAlwaysOk mf0 mf0).1 = 10 ∧
    roundsPerformed (startMasterFollower envAlwaysOk mf0 mf0).1 ≠ 0 + 1 := by
  decide

/-- C2, evaluation of the code where the claim fails.  (a) Rounds 1 and 2 fail,
round 3 succeeds with `cfgA`, rounds 4 to 10 fail: start-up is abandoned by an
ordinary return, no service instance is created and no listener is bound.
(b) Rounds 1 and 2 fail, round 3 succeeds with `cfgA`, rounds 4 to 10 succeed
with `cfgB`: the service is assembled from `cfgB`, not from the configuration
of the first successful attempt. -/
theorem C2_first_success_is_not_kept :
    ((roundErr envThirdOnly ["localhost:19333"] mf0 0).isSome = true ∧
      (roundErr envThirdOnly ["localhost:19333"] mf0 1).isSome = true ∧
      roundErr envThirdOnly ["localhost:19333"] mf0 2 = none ∧
      (startMasterFollower envThirdOnly mf0 mf0).2 = Outcome.returned ∧
      serverOptions (startMasterFollower envThirdOnly mf0 mf0).1 = [] ∧
      listenAddresses (startMasterFollower envThirdOnly mf0 mf0).1 = []) ∧
    ((roundErr envThirdThenB ["localhost:19333"] mf0 0).isSome = true ∧
      (roundErr envThirdThenB ["localhost:19333"] mf0 1).isSome = true ∧
      roundErr envThirdThenB ["localhost:19333"] mf0 2 = none ∧
      (stateBefore envThirdThenB ["localhost:19333"] mf0 3).masterOptions
        = writeConfiguration cfgA mf0 ∧
      serverOptions (startMasterFollower envThirdThenB mf0 mf0).1
        = [{ toMasterOption0 (writeConfiguration cfgB mf0) with IsFollower := true }] ∧
      serverOptions (startMasterFollower envThirdThenB mf0 mf0).1
        ≠ [{ toMasterOption0 (writeConfiguration cfgA mf0) with IsFollower := true }]) := by
  decide

/-- C3, counterexample: when every attempt fails, the loop sleeps ten times, not
nine: after the tenth round (index 9) it still sleeps ten seconds, and that
sleep is the last thing it does before returning. -/
theorem C3_counterexample :
    (∀ i j, (envAllFail.reply i j).isFailure = true) ∧
    roundsPerformed (startMasterFollower envAllFail mf0 mf0).1 = 10 ∧
    sleepDurations (startMasterFollower envAllFail mf0 mf0).1
      = [1 * Second, 2 * Second, 3 * Second, 4 * Second, 5 * Second, 6 * Second,
         7 * Second, 8 * Second, 9 * Second, 10 * Second] ∧
    (sleepDurations (startMasterFollower envAllFail mf0 mf0).1).length ≠ 9 ∧
    (startMasterFollower envAllFail mf0 mf0).1.getLast? = some (Event.sleep 9 (10 * Second)) ∧
    (startMasterFollower envAllFail mf0 mf0).2 = Outcome.returned :=
  ⟨fun _ _ => rfl, by decide, by decide, by decide, by decide, by decide⟩

/-- C3, amended: when every get-configuration attempt fails in every round, the
bootstrap performs exactly ten rounds and sleeps exactly ten times, once after
every round, the tenth included, for 1, 2, ..., 10 seconds in that order; then
it fails: `startMasterFollower` returns without starting the service. -/
theorem C3_all_rounds_fail (env : Env) (mf mo : MasterOptions) (A : List String)
    (hparse : env.parseServersToGrpcAddresses (Split mf.peers) = .ok A)
    (hfail : ∀ i j, i < 10 → j < A.length → (env.reply i j).isFailure = true) :
    roundsPerformed (startMasterFollower env mf mo).1 = 10 ∧
    sleepDurations (startMasterFollower env mf mo).1
      = (List.range 10).map (fun i => (i + 1) * Second) ∧
    (startMasterFollower env mf mo).1
      = (List.range 10).flatMap (fun i =>
          Event.round i :: roundRequests i (env.reply i) A 0
            ++ [Event.sleep i ((i + 1) * Second)]) ∧
    (∀ e ∈ (startMasterFollower env mf mo).1, e.isStartup = false) ∧
    (startMasterFollower env mf mo).2 = Outcome.returned := by
  have hf : ∀ i, i < 10 → roundFails env A i = true := fun i hi =>
    roundFails_of_all_fail env A i (fun j hj => hfail i j hi hj)
  have hrun : startMasterFollower env mf mo = ((bootstrap env A mo).trace, Outcome.returned) := by
    rcases startMasterFollower_cases env mf mo A hparse with ⟨_, h⟩ | ⟨h9, _⟩
    · exact h
    · rw [hf 9 (by omega)] at h9
      cases h9
  rw [hrun]
  refine ⟨?_, ?_, ?_, ?_, rfl⟩
  · show roundsPerformed (bootstrap env A mo).trace = 10
    rw [bootstrap_trace, roundsPerformed_flatMap]
    rfl
  · show sleepDurations (bootstrap env A mo).trace = _
    rw [bootstrap_trace, sleepDurations_flatMap]
    congr 1
    rw [List.filter_eq_self]
    intro i hi
    exact hf i (List.mem_range.mp hi)
  · show (bootstrap env A mo).trace = _
    rw [bootstrap_trace]
    apply List.flatMap_congr
    intro i hi
    unfold roundEvents
    rw [hf i (List.mem_range.mp hi)]
    rfl
  · intro e he
    exact not_isStartup_bootstrap env A mo e he

/-- C3, amended, at a concrete input: one peer that refuses every connection. -/
theorem C3_all_rounds_fail_witness :
    roundsPerformed (startMasterFollower envAllFail mf0 mf0).1 = 10 ∧
    sleepDurations (startMasterFollower envAllFail mf0 mf0).1
      = (List.range 10).map (fun i => (i + 1) * Second) ∧
    (startMasterFollower envAllFail mf0 mf0).1
      = (List.range 10).flatMap (fun i =>
          Event.round i :: roundRequests i (envAllFail.reply i) ["localhost:19333"] 0
            ++ [Event.sleep i ((i + 1) * Second)]) ∧
    (∀ e ∈ (startMasterFollower envAllFail mf0 mf0).1, e.isStartup = false) ∧
    (startMasterFollower envAllFail mf0 mf0).2 = Outcome.returned :=
  C3_all_rounds_fail envAllFail mf0 mf0 ["localhost:19333"] rfl (fun _ _ _ _ => rfl)


/-! ## The bootstrap loop: back-off -/

/-- C4: in a run of `startMasterFollower`, for every round index `i` the sleep
of iteration `i` is executed if and only if `i` is one of the ten rounds and
round `i` failed (its `err` is not nil), and it lasts exactly `i + 1` seconds.
Hence the sleeps of two consecutive failed rounds differ by exactly one second,
the durations slept are strictly increasing and lie between 1 and 10 seconds,
and a successful round is followed by no sleep: the trace is, round after
round, the start of the round, its requests, and the sleep only if it failed. -/
theorem C4_sleep_iff_round_failed (env : Env) (mf mo : MasterOptions) (A : List String)
    (hparse : env.parseServersToGrpcAddresses (Split mf.peers) = .ok A) :
    (∀ i d, Event.sleep i d ∈ (startMasterFollower env mf mo).1 ↔
        i < 10 ∧ (roundErr env A mo i).isSome = true ∧ d = (i + 1) * Second) ∧
    (∀ i d d1, Event.sleep i d ∈ (startMasterFollower env mf mo).1 →
        Event.sleep (i + 1) d1 ∈ (startMasterFollower env mf mo).1 → d1 = d + Second) ∧
    (sleepDurations (startMasterFollower env mf mo).1).Pairwise (fun a b => a < b) ∧
    (∀ d ∈ sleepDurations (startMasterFollower env mf mo).1,
        1 * Second ≤ d ∧ d ≤ 10 * Second) ∧
    (∀ i, i < 10 → roundErr env A mo i = none →
        ∀ d, Event.sleep i d ∉ (startMasterFollower env mf mo).1) ∧
    (∃ rest, (∀ e ∈ rest, e.isStartup = true) ∧
      (startMasterFollower env mf mo).1 =
        (List.range 10).flatMap (fun i =>
          Event.round i :: roundRequests i (env.reply i) A 0 ++
            (if (roundErr env A mo i).isSome then [Event.sleep i ((i + 1) * Second)] else []))
        ++ rest) := by
  obtain ⟨rest, htr, hrest, _, _⟩ := startMasterFollower_shape env mf mo A hparse
  have hmem : ∀ i d, Event.sleep i d ∈ (startMasterFollower env mf mo).1 ↔
      i < 10 ∧ (roundErr env A mo i).isSome = true ∧ d = (i + 1) * Second := by
    intro i d
    rw [htr, List.mem_append, bootstrap_trace, List.mem_flatMap, roundErr_isSome]
    constructor
    · rintro (⟨k, hk, h⟩ | h)
      · rw [sleep_mem_roundEvents] at h
        obtain ⟨rfl, hf, hd⟩ := h
        exact ⟨List.mem_range.mp hk, hf, hd⟩
      · have := hrest _ h
        cases this
    · rintro ⟨hi, hf, hd⟩
      left
      exact ⟨i, List.mem_range.mpr hi, (sleep_mem_roundEvents env A i i d).mpr ⟨rfl, hf, hd⟩⟩
  have hsl : sleepDurations (startMasterFollower env mf mo).1 =
      ((List.range 10).filter (roundFails env A)).map (fun i => (i + 1) * Second) := by
    rw [htr, sleepDurations_append, bootstrap_trace, sleepDurations_flatMap]
    have : sleepDurations rest = [] := by
      unfold sleepDurations
      rw [List.filterMap_eq_nil_iff]
      intro e he
      have := hrest e he
      cases e <;> first | rfl | cases this
    rw [this, List.append_nil]
  refine ⟨hmem, ?_, ?_, ?_, ?_, ?_⟩
  · intro i d d1 h h1
    obtain ⟨_, _, rfl⟩ := (hmem i d).mp h
    obtain ⟨_, _, rfl⟩ := (hmem (i + 1) d1).mp h1
    ring
  · rw [hsl]
    apply List.Pairwise.map _ _ ((List.pairwise_lt_range 10).filter _)
    intro a b hab
    exact Nat.mul_lt_mul_of_pos_right (by omega) (by decide)
  · intro d hd
    rw [hsl, List.mem_map] at hd
    obtain ⟨i, hi, rfl⟩ := hd
    have hi10 : i < 10 := List.mem_range.mp (List.mem_filter.mp hi).1
    constructor
    · exact Nat.mul_le_mul_right _ (by omega)
    · exact Nat.mul_le_mul_right _ (by omega)
  · intro i _ hnone d hd
    have := ((hmem i d).mp hd).2.1
    rw [hnone] at this
    cases this
  · refine ⟨rest, hrest, ?_⟩
    rw [htr, bootstrap_trace]
    congr 1
    apply List.flatMap_congr
    intro i _
    unfold roundEvents
    rw [roundErr_isSome]

/-- C4 at a concrete input: rounds 1 and 3 fail, all the others succeed. -/
theorem C4_sleep_iff_round_failed_witness :
    (Event.sleep 2 (3 * Second) ∈ (startMasterFollower envGaps mf0 mf0).1 ↔
        2 < 10 ∧ (roundErr envGaps ["localhost:19333"] mf0 2).isSome = true ∧
          3 * Second = (2 + 1) * Second) ∧
    sleepDurations (startMasterFollower envGaps mf0 mf0).1 = [1 * Second, 3 * Second] ∧
    (∀ d, Event.sleep 1 d ∉ (startMasterFollower envGaps mf0 mf0).1) :=
  ⟨(C4_sleep_iff_round_failed envGaps mf0 mf0 ["localhost:19333"] rfl).1 2 (3 * Second),
    by decide,
    (C4_sleep_iff_round_failed envGaps mf0 mf0 ["localhost:19333"] rfl).2.2.2.2.1 1
      (by decide) (by decide)⟩


/-! ## Service start-up -/

/-- C5: for every base port `p` (an `int` such that `p + 10000` is an `int`
too) and every bind address `a`, whatever configuration the bootstrap
delivered: the first listener is bound to `a ++ ":" ++ Itoa p`, and the second
one, the gRPC listener, which is bound when the first bind succeeded, to
`a ++ ":" ++ Itoa (p + 10000)`; there is no other bind. -/
theorem C5_listener_addresses (env : Env) (mf mo : MasterOptions) (A : List String)
    (hparse : env.parseServersToGrpcAddresses (Split mf.peers) = .ok A)
    (hboot : roundErr env A mo 9 = none)
    (hmin : minInt ≤ mo.port) (hmax : mo.port + 10000 ≤ maxInt) :
    listenAddresses (startMasterFollower env mf mo).1 =
      (mo.ipBind ++ ":" ++ Itoa mo.port) ::
        (if env.newListener (mo.ipBind ++ ":" ++ Itoa mo.port) = none
          then [mo.ipBind ++ ":" ++ Itoa (mo.port + 10000)] else []) := by
  have hb : listenAddresses (bootstrap env A mo).trace = [] := by
    unfold listenAddresses
    rw [List.filterMap_eq_nil_iff]
    intro e he
    have := not_isStartup_bootstrap env A mo e he
    cases e <;> first | rfl | cases this
  have hadd : intAdd mo.port 10000 = mo.port + 10000 :=
    wrapInt_eq _ (by unfold minInt intBits at *; omega) hmax
  have hla : listeningAddress (bootstrap env A mo).masterOptions
      = mo.ipBind ++ ":" ++ Itoa mo.port := by
    unfold listeningAddress
    rw [(bootstrap_port env A mo).1, (bootstrap_port env A mo).2]
  have hga : grpcAddress (bootstrap env A mo).masterOptions
      = mo.ipBind ++ ":" ++ Itoa (mo.port + 10000) := by
    unfold grpcAddress
    rw [(bootstrap_port env A mo).1, (bootstrap_port env A mo).2, hadd]
  have happ : ∀ l1 l2, listenAddresses (l1 ++ l2) = listenAddresses l1 ++ listenAddresses l2 :=
    fun l1 l2 => List.filterMap_append _ _ _
  rcases startMasterFollower_cases env mf mo A hparse with ⟨hf, _⟩ | ⟨_, h⟩
  · rw [(roundErr_none_iff env A mo 9).mp hboot] at hf
    cases hf
  · rcases startService_cases env (Split mf.peers) (bootstrap env A mo).masterOptions
      (bootstrap env A mo).trace with ⟨e, h1, hs⟩ | ⟨h1, e, _, hs⟩ | ⟨h1, _, hs⟩
    all_goals
      rw [hs] at h
      rw [hla] at h1
      rw [h, happ, hb, h1, hla]
      try rw [hga]
      simp [listenAddresses]

/-- C5 at the default port: the listeners are bound to ports 9334 and 19334 of
the same (empty) bind address. -/
theorem C5_listener_addresses_witness :
    listenAddresses (startMasterFollower envAlwaysOk mf0 mf0).1 =
      (mf0.ipBind ++ ":" ++ Itoa mf0.port) ::
        (if envAlwaysOk.newListener (mf0.ipBind ++ ":" ++ Itoa mf0.port) = none
          then [mf0.ipBind ++ ":" ++ Itoa (mf0.port + 10000)] else []) ∧
    Itoa mf0.port = "9334" ∧ Itoa (mf0.port + 10000) = "19334" :=
  ⟨C5_listener_addresses envAlwaysOk mf0 mf0 ["localhost:19333"] rfl (by decide)
      (by decide) (by decide),
    by decide, by decide⟩

/-- C6: if all ten bootstrap rounds fail, `startMasterFollower` returns with a
trace that contains no start-up event (no service instance, no listener bind,
no background task).  Conversely, in every run the start-up events, the
listener binds among them, all come after the complete trace of the ten-round
loop, and there are some only if the loop ended with `err == nil`. -/
theorem C6_no_startup_without_bootstrap (env : Env) (mf mo : MasterOptions)
    (A : List String)
    (hparse : env.parseServersToGrpcAddresses (Split mf.peers) = .ok A) :
    ((∀ i, i < 10 → (roundErr env A mo i).isSome = true) →
      (startMasterFollower env mf mo).2 = Outcome.returned ∧
      (∀ e ∈ (startMasterFollower env mf mo).1, e.isStartup = false) ∧
      serverOptions (startMasterFollower env mf mo).1 = [] ∧
      listenAddresses (startMasterFollower env mf mo).1 = []) ∧
    (∃ rest,
      (startMasterFollower env mf mo).1 = (bootstrap env A mo).trace ++ rest ∧
      roundsPerformed (bootstrap env A mo).trace = 10 ∧
      (∀ e ∈ (bootstrap env A mo).trace, e.isStartup = false) ∧
      (∀ e ∈ rest, e.isStartup = true) ∧
      (rest ≠ [] → (bootstrap env A mo).err = none)) := by
  constructor
  · intro hall
    have h9 : roundFails env A 9 = true := by
      rw [← roundErr_isSome env A mo 9]
      exact hall 9 (by omega)
    rcases startMasterFollower_cases env mf mo A hparse with ⟨_, h⟩ | ⟨hf, _⟩
    · rw [h]
      have hno := not_isStartup_bootstrap env A mo
      refine ⟨rfl, hno, ?_, ?_⟩
      · unfold serverOptions
        rw [List.filterMap_eq_nil_iff]
        intro e he
        have := hno e he
        cases e <;> first | rfl | cases this
      · unfold listenAddresses
        rw [List.filterMap_eq_nil_iff]
        intro e he
        have := hno e he
        cases e <;> first | rfl | cases this
    · rw [h9] at hf
      cases hf
  · obtain ⟨rest, htr, hrest, hnil, _⟩ := startMasterFollower_shape env mf mo A hparse
    refine ⟨rest, htr, ?_, not_isStartup_bootstrap env A mo, hrest, ?_⟩
    · rw [bootstrap_trace, roundsPerformed_flatMap]
      rfl
    · intro hne
      rw [bootstrap_err, roundErr_none_iff]
      cases hf : roundFails env A 9 with
      | false => rfl
      | true => exact absurd (hnil hf) hne

/-- C6 at a concrete input: one peer that refuses every connection. -/
theorem C6_no_startup_without_bootstrap_witness :
    (startMasterFollower envAllFail mf0 mf0).2 = Outcome.returned ∧
    (∀ e ∈ (startMasterFollower envAllFail mf0 mf0).1, e.isStartup = false) ∧
    serverOptions (startMasterFollower envAllFail mf0 mf0).1 = [] ∧
    listenAddresses (startMasterFollower envAllFail mf0 mf0).1 = [] :=
  (C6_no_startup_without_bootstrap envAllFail mf0 mf0 ["localhost:19333"] rfl).1
    (by decide)

/-- C7: after a successful bootstrap, if the bind of the plain HTTP listener
fails, or it succeeds and the bind of the gRPC listener fails, then
`startMasterFollower` ends in `glog.Fatalf` and none of the three background
tasks has been started; and in every run, a background task is started only
if both binds succeeded, in which case all three are started. -/
theorem C7_bind_failure_is_fatal (env : Env) (mf mo : MasterOptions) (A : List String)
    (hparse : env.parseServersToGrpcAddresses (Split mf.peers) = .ok A)
    (hboot : roundErr env A mo 9 = none) :
    ((env.newListener (mo.ipBind ++ ":" ++ Itoa mo.port) ≠ none ∨
        (env.newListener (mo.ipBind ++ ":" ++ Itoa mo.port) = none ∧
          env.newListener (mo.ipBind ++ ":" ++ Itoa (intAdd mo.port 10000)) ≠ none)) →
      (startMasterFollower env mf mo).2.isFatal = true ∧
      (∀ e ∈ (startMasterFollower env mf mo).1, e.isServing = false)) ∧
    ((∃ e ∈ (startMasterFollower env mf mo).1, e.isServing = true) →
      env.newListener (mo.ipBind ++ ":" ++ Itoa mo.port) = none ∧
      env.newListener (mo.ipBind ++ ":" ++ Itoa (intAdd mo.port 10000)) = none ∧
      (startMasterFollower env mf mo).2 = Outcome.blocked ∧
      (startMasterFollower env mf mo).1.filter Event.isServing =
        [Event.goGrpcServe, Event.goKeepConnectedToMaster, Event.goHttpServe]) := by
  have hla : listeningAddress (bootstrap env A mo).masterOptions
      = mo.ipBind ++ ":" ++ Itoa mo.port := by
    unfold listeningAddress
    rw [(bootstrap_port env A mo).1, (bootstrap_port env A mo).2]
  have hga : grpcAddress (bootstrap env A mo).masterOptions
      = mo.ipBind ++ ":" ++ Itoa (intAdd mo.port 10000) := by
    unfold grpcAddress
    rw [(bootstrap_port env A mo).1, (bootstrap_port env A mo).2]
  have hb : ∀ e ∈ (bootstrap env A mo).trace, e.isServing = false := by
    intro e he
    have := not_isStartup_bootstrap env A mo e he
    cases e <;> first | rfl | cases this
  have hbf : (bootstrap env A mo).trace.filter Event.isServing = [] := by
    rw [List.filter_eq_nil_iff]
    intro e he
    rw [hb e he]
    simp
  rcases startMasterFollower_cases env mf mo A hparse with ⟨hf, _⟩ | ⟨_, h⟩
  · rw [(roundErr_none_iff env A mo 9).mp hboot] at hf
    cases hf
  · rcases startService_cases env (Split mf.peers) (bootstrap env A mo).masterOptions
      (bootstrap env A mo).trace with ⟨e, h1, hs⟩ | ⟨h1, e, h2, hs⟩ | ⟨h1, h2, hs⟩
    · rw [hs] at h
      rw [hla] at h1
      rw [h]
      constructor
      · intro _
        refine ⟨rfl, ?_⟩
        intro ev hev
        simp only [List.mem_append, List.mem_cons, List.mem_singleton, List.not_mem_nil,
          or_false] at hev
        rcases hev with hev | rfl | rfl
        · exact hb ev hev
        · rfl
        · rfl
      · rintro ⟨ev, hev, hserv⟩
        simp only [List.mem_append, List.mem_cons, List.mem_singleton, List.not_mem_nil,
          or_false] at hev
        rcases hev with hev | rfl | rfl
        · rw [hb ev hev] at hserv
          cases hserv
        · cases hserv
        · cases hserv
    · rw [hs] at h
      rw [hla] at h1
      rw [hga] at h2
      rw [h]
      constructor
      · intro _
        refine ⟨rfl, ?_⟩
        intro ev hev
        simp only [List.mem_append, List.mem_cons, List.mem_singleton, List.not_mem_nil,
          or_false] at hev
        rcases hev with hev | rfl | rfl | rfl
        · exact hb ev hev
        · rfl
        · rfl
        · rfl
      · rintro ⟨ev, hev, hserv⟩
        simp only [List.mem_append, List.mem_cons, List.mem_singleton, List.not_mem_nil,
          or_false] at hev
        rcases hev with hev | rfl | rfl | rfl
        · rw [hb ev hev] at hserv
          cases hserv
        · cases hserv
        · cases hserv
        · cases hserv
    · rw [hs] at h
      rw [hla] at h1
      rw [hga] at h2
      rw [h]
      constructor
      · rintro (hne | ⟨_, hne⟩)
        · exact absurd h1 hne
        · exact absurd h2 hne
      · intro _
        refine ⟨h1, h2, rfl, ?_⟩
        show List.filter Event.isServing (_ ++ _) = _
        rw [List.filter_append, hbf]
        rfl

/-- C7 at two concrete inputs: the gRPC port is already in use; the plain port
is already in use. -/
theorem C7_bind_failure_is_fatal_witness :
    ((startMasterFollower envGrpcBindFails mf0 mf0).2.isFatal = true ∧
      (∀ e ∈ (startMasterFollower envGrpcBindFails mf0 mf0).1, e.isServing = false)) ∧
    ((startMasterFollower envPlainBindFails mf0 mf0).2.isFatal = true ∧
      (∀ e ∈ (startMasterFollower envPlainBindFails mf0 mf0).1, e.isServing = false)) :=
  ⟨(C7_bind_failure_is_fatal envGrpcBindFails mf0 mf0 ["localhost:19333"] rfl
      (by decide)).1 (Or.inr ⟨by decide, by decide⟩),
    (C7_bind_failure_is_fatal envPlainBindFails mf0 mf0 ["localhost:19333"] rfl
      (by decide)).1 (Or.inl (by decide))⟩


/-- C8, counterexample: when all ten rounds fail, `startMasterFollower` ends by
an ordinary return, not by a fatal termination, and `runMasterFollower` then
returns `true`; a failed bind, in contrast, ends in `glog.Fatalf`.  The two
failures do not end start-up with the same kind of outcome. -/
theorem C8_counterexample :
    (∀ i, i < 10 → (roundErr envAllFail ["localhost:19333"] mf0 i).isSome = true) ∧
    (startMasterFollower envAllFail mf0 mf0).2 = Outcome.returned ∧
    (startMasterFollower envAllFail mf0 mf0).2.isFatal = false ∧
    (runMasterFollower envAllFail mf0).2 = some true ∧
    (startMasterFollower envGrpcBindFails mf0 mf0).2.isFatal = true ∧
    (runMasterFollower envGrpcBindFails mf0).2 = none := by
  decide

/-- C8, amended: bootstrap exhaustion and listener-bind failure end start-up
differently.  When all ten rounds fail, `startMasterFollower` returns
ordinarily and `runMasterFollower` returns `true`.  When the bootstrap
succeeded and a listener bind fails, `startMasterFollower` ends in
`glog.Fatalf` and control never comes back to `runMasterFollower`. -/
theorem C8_exhaustion_returns_bind_failure_is_fatal (env : Env) (mf : MasterOptions)
    (A : List String)
    (hparse : env.parseServersToGrpcAddresses (Split mf.peers) = .ok A) :
    ((∀ i, i < 10 → (roundErr env A mf i).isSome = true) →
      (startMasterFollower env mf mf).2 = Outcome.returned ∧
      (runMasterFollower env mf).2 = some true) ∧
    (roundErr env A mf 9 = none →
      (env.newListener (mf.ipBind ++ ":" ++ Itoa mf.port) ≠ none ∨
        env.newListener (mf.ipBind ++ ":" ++ Itoa (intAdd mf.port 10000)) ≠ none) →
      (startMasterFollower env mf mf).2.isFatal = true ∧
      (runMasterFollower env mf).2 = none) := by
  have hla : listeningAddress (bootstrap env A mf).masterOptions
      = mf.ipBind ++ ":" ++ Itoa mf.port := by
    unfold listeningAddress
    rw [(bootstrap_port env A mf).1, (bootstrap_port env A mf).2]
  have hga : grpcAddress (bootstrap env A mf).masterOptions
      = mf.ipBind ++ ":" ++ Itoa (intAdd mf.port 10000) := by
    unfold grpcAddress
    rw [(bootstrap_port env A mf).1, (bootstrap_port env A mf).2]
  constructor
  · intro hall
    have h9 : roundFails env A 9 = true := by
      rw [← roundErr_isSome env A mf 9]
      exact hall 9 (by omega)
    rcases startMasterFollower_cases env mf mf A hparse with ⟨_, h⟩ | ⟨hf, _⟩
    · unfold runMasterFollower
      rw [h]
      exact ⟨rfl, rfl⟩
    · rw [h9] at hf
      cases hf
  · intro hboot hbind
    rcases startMasterFollower_cases env mf mf A hparse with ⟨hf, _⟩ | ⟨_, h⟩
    · rw [(roundErr_none_iff env A mf 9).mp hboot] at hf
      cases hf
    · rcases startService_cases env (Split mf.peers) (bootstrap env A mf).masterOptions
        (bootstrap env A mf).trace with ⟨e, _, hs⟩ | ⟨_, e, _, hs⟩ | ⟨h1, h2, _⟩
      · rw [hs] at h
        unfold runMasterFollower
        rw [h]
        exact ⟨rfl, rfl⟩
      · rw [hs] at h
        unfold runMasterFollower
        rw [h]
        exact ⟨rfl, rfl⟩
      · rw [hla] at h1
        rw [hga] at h2
        rcases hbind with hne | hne
        · exact absurd h1 hne
        · exact absurd h2 hne

/-- C8, amended, at two concrete inputs: every connection is refused; the
bootstrap succeeds and the gRPC port is already in use. -/
theorem C8_exhaustion_returns_bind_failure_is_fatal_witness :
    ((startMasterFollower envAllFail mf0 mf0).2 = Outcome.returned ∧
      (runMasterFollower envAllFail mf0).2 = some true) ∧
    ((startMasterFollower envGrpcBindFails mf0 mf0).2.isFatal = true ∧
      (runMasterFollower envGrpcBindFails mf0).2 = none) :=
  ⟨(C8_exhaustion_returns_bind_failure_is_fatal envAllFail mf0 ["localhost:19333"] rfl).1
      (by decide),
    (C8_exhaustion_returns_bind_failure_is_fatal envGrpcBindFails mf0 ["localhost:19333"]
      rfl).2 (by decide) (Or.inr (by decide))⟩

/-- C9: in every run of `startMasterFollower`, for every world (hence every
bootstrapped configuration and every `toMasterOption`) and every follower
option value, every option passed to `NewMasterServer` has `IsFollower = true`. -/
theorem C9_follower_flag_set (env : Env) (mf mo : MasterOptions) (option : MasterOption)
    (masters : List String)
    (h : Event.newMasterServer option masters ∈ (startMasterFollower env mf mo).1) :
    option.IsFollower = true := by
  unfold startMasterFollower at h
  cases hp : env.parseServersToGrpcAddresses (Split mf.peers) with
  | error e =>
    simp only [hp] at h
    cases h
  | ok A =>
    have h0 := h
    clear h
    have hcases := startMasterFollower_cases env mf mo A hp
    have hmem : Event.newMasterServer option masters ∈ (startMasterFollower env mf mo).1 := by
      unfold startMasterFollower
      exact h0
    have hb : Event.newMasterServer option masters ∉ (bootstrap env A mo).trace := by
      intro hin
      have := not_isStartup_bootstrap env A mo _ hin
      cases this
    rcases hcases with ⟨_, hs⟩ | ⟨_, hs⟩
    · rw [hs] at hmem
      exact absurd hmem hb
    · rcases startService_cases env (Split mf.peers) (bootstrap env A mo).masterOptions
        (bootstrap env A mo).trace with ⟨e, _, hs1⟩ | ⟨_, e, _, hs1⟩ | ⟨_, _, hs1⟩
      all_goals
        rw [hs1] at hs
        rw [hs] at hmem
        simp only [List.mem_append, List.mem_cons, List.mem_singleton, List.not_mem_nil,
          or_false, Event.newMasterServer.injEq, reduceCtorEq, false_or] at hmem
        rcases hmem with hmem | ⟨rfl, _⟩
        · exact absurd hmem hb
        · rfl

/-- C9 at the configuration replication "000", size limit 30000, no
preallocation, base port 9334: the service instance is created, and with the
non-voting flag set. -/
theorem C9_follower_flag_set_witness :
    Event.newMasterServer
        { Host := "10.0.0.5", Port := 9334, VolumeSizeLimitMB := 30000,
          VolumePreallocate := false, DefaultReplicaPlacement := "000", IsFollower := true }
        ["localhost:9333"] ∈ (startMasterFollower envAlwaysOk mf0 mf0).1 ∧
    (({ Host := "10.0.0.5", Port := 9334, VolumeSizeLimitMB := 30000,
        VolumePreallocate := false, DefaultReplicaPlacement := "000",
        IsFollower := true } : MasterOption).IsFollower = true) :=
  ⟨by decide,
    C9_follower_flag_set envAlwaysOk mf0 mf0
      { Host := "10.0.0.5", Port := 9334, VolumeSizeLimitMB := 30000,
        VolumePreallocate := false, DefaultReplicaPlacement := "000", IsFollower := true }
      ["localhost:9333"] (by decide)⟩

/-- C10: the loop always executes ten rounds, and whether `startMasterFollower`
proceeds past it to service start-up is decided by the `err` left by the last
of them (index 9) alone: there are start-up
events, and the outcome is not an ordinary return, if and only if that round
returned no error.  The options the loop leaves behind carry the fields written
by the most recent successful round, if any, and when start-up proceeds the
service instance is assembled from exactly those options. -/
theorem C10_last_round_decides (env : Env) (mf mo : MasterOptions) (A : List String)
    (hparse : env.parseServersToGrpcAddresses (Split mf.peers) = .ok A) :
    (roundsPerformed (bootstrap env A mo).trace = 10 ∧
      (bootstrap env A mo).err = roundErr env A mo 9) ∧
    ((∃ e ∈ (startMasterFollower env mf mo).1, e.isStartup = true) ↔
        roundErr env A mo 9 = none) ∧
    ((startMasterFollower env mf mo).2 ≠ Outcome.returned ↔ roundErr env A mo 9 = none) ∧
    ((bootstrap env A mo).masterOptions =
        match lastResponse env A 10 with
        | some r => writeConfiguration r mo
        | none => mo) ∧
    (roundErr env A mo 9 = none →
      ∃ r, lastResponse env A 10 = some r ∧
        roundOutcome A (env.reply 9) A 0 errNoPeer = .ok r ∧
        serverOptions (startMasterFollower env mf mo).1 =
          [{ env.toMasterOption (writeConfiguration r mo) with IsFollower := true }]) := by
  obtain ⟨rest, htr, hrest, hnil, hne⟩ := startMasterFollower_shape env mf mo A hparse
  have hsb : serverOptions (bootstrap env A mo).trace = [] := by
    unfold serverOptions
    rw [List.filterMap_eq_nil_iff]
    intro e he
    have := not_isStartup_bootstrap env A mo e he
    cases e <;> first | rfl | cases this
  have happ : ∀ l1 l2, serverOptions (l1 ++ l2) = serverOptions l1 ++ serverOptions l2 :=
    fun l1 l2 => List.filterMap_append _ _ _
  refine ⟨⟨?_, bootstrap_err env A mo⟩, ?_, ?_, bootstrap_options env A mo, ?_⟩
  · rw [bootstrap_trace, roundsPerformed_flatMap]
    rfl
  · rw [roundErr_none_iff]
    constructor
    · rintro ⟨e, he, hst⟩
      cases hf : roundFails env A 9 with
      | false => rfl
      | true =>
        rw [htr, hnil hf, List.append_nil] at he
        rw [not_isStartup_bootstrap env A mo e he] at hst
        cases hst
    · intro hf
      have hr := hne hf
      cases rest with
      | nil => exact absurd rfl hr
      | cons e es =>
        exact ⟨e, by rw [htr]; simp, hrest e (by simp)⟩
  · rw [roundErr_none_iff]
    rcases startMasterFollower_cases env mf mo A hparse with ⟨hf, h⟩ | ⟨hf, h⟩
    · rw [h, hf]
      simp
    · rcases startService_cases env (Split mf.peers) (bootstrap env A mo).masterOptions
        (bootstrap env A mo).trace with ⟨e, _, hs⟩ | ⟨_, e, _, hs⟩ | ⟨_, _, hs⟩
      all_goals
        rw [hs] at h
        rw [h, hf]
        simp
  · intro hboot
    have hf := (roundErr_none_iff env A mo 9).mp hboot
    obtain ⟨r, hro, hlast⟩ := lastResponse_of_succeeds env A 9 hf
    refine ⟨r, hlast, hro, ?_⟩
    have hopt : (bootstrap env A mo).masterOptions = writeConfiguration r mo := by
      rw [bootstrap_options, hlast]
    rcases startMasterFollower_cases env mf mo A hparse with ⟨hf1, _⟩ | ⟨_, h⟩
    · rw [hf] at hf1
      cases hf1
    · rcases startService_cases env (Split mf.peers) (bootstrap env A mo).masterOptions
        (bootstrap env A mo).trace with ⟨e, _, hs⟩ | ⟨_, e, _, hs⟩ | ⟨_, _, hs⟩
      all_goals
        rw [hs] at h
        rw [h, happ, hsb, hopt]
        rfl

/-- C10 at a concrete input: rounds 1 and 2 fail, round 3 succeeds with `cfgA`,
rounds 4 to 10 succeed with `cfgB`; start-up proceeds, with `cfgB`. -/
theorem C10_last_round_decides_witness :
    ((startMasterFollower envThirdThenB mf0 mf0).2 ≠ Outcome.returned ↔
      roundErr envThirdThenB ["localhost:19333"] mf0 9 = none) ∧
    (bootstrap envThirdThenB ["localhost:19333"] mf0).masterOptions =
      writeConfiguration cfgB mf0 :=
  ⟨(C10_last_round_decides envThirdThenB mf0 mf0 ["localhost:19333"] rfl).2.2.1, by decide⟩


end MasterFollower
